import Mathlib

/-!
Shallow embedding of the go-gpmctl protocol layer: the handshake
encoder (NewGPM), the 28-byte event decoder (GPM.Read) and the
bitmask string renderers (Buttons.String, EventType.String,
Margin.String, Event.String).

Bytes are modelled as `Nat` values (< 256 in all real buffers);
buffers as `List Nat`.  The process-wide `nativeEndian` constant,
resolved at startup from the host, is modelled by an explicit
`Endian` parameter covering both of its possible values.
-/

namespace Gpmctl

/-- The two possible values of the process-wide `nativeEndian`
constant (`binary.LittleEndian` / `binary.BigEndian`). -/
inductive Endian where
  | little
  | big
deriving DecidableEq

/-- Go `byte(v)`: truncation of an unsigned value to its low 8 bits. -/
def toByte (v : Nat) : Nat := v % 256

/-- `nativeEndian.Uint16(b[i:])`: read a 16-bit unsigned value at
offset `i`.  Little: `uint16(b[0]) | uint16(b[1])<<8`;
big: `uint16(b[1]) | uint16(b[0])<<8`. -/
def getU16 (en : Endian) (b : List Nat) (i : Nat) : Nat :=
  match en with
  | .little => b.getD i 0 ||| b.getD (i + 1) 0 <<< 8
  | .big => b.getD (i + 1) 0 ||| b.getD i 0 <<< 8

/-- `nativeEndian.Uint32(b[i:])`: read a 32-bit unsigned value at
offset `i`. -/
def getU32 (en : Endian) (b : List Nat) (i : Nat) : Nat :=
  match en with
  | .little =>
      b.getD i 0 ||| b.getD (i + 1) 0 <<< 8 ||| b.getD (i + 2) 0 <<< 16 |||
        b.getD (i + 3) 0 <<< 24
  | .big =>
      b.getD (i + 3) 0 ||| b.getD (i + 2) 0 <<< 8 ||| b.getD (i + 1) 0 <<< 16 |||
        b.getD i 0 <<< 24

/-- `nativeEndian.PutUint16`: the two bytes written for a 16-bit value. -/
def putU16 (en : Endian) (v : Nat) : List Nat :=
  match en with
  | .little => [toByte v, toByte (v >>> 8)]
  | .big => [toByte (v >>> 8), toByte v]

/-- `nativeEndian.PutUint32`: the four bytes written for a 32-bit value. -/
def putU32 (en : Endian) (v : Nat) : List Nat :=
  match en with
  | .little => [toByte v, toByte (v >>> 8), toByte (v >>> 16), toByte (v >>> 24)]
  | .big => [toByte (v >>> 24), toByte (v >>> 16), toByte (v >>> 8), toByte v]

/-- Go `int16(u)`: two's-complement reinterpretation of the low 16 bits. -/
def toInt16 (u : Nat) : Int :=
  if u % 65536 < 32768 then ((u % 65536 : Nat) : Int)
  else ((u % 65536 : Nat) : Int) - 65536

/-- Go `int32(u)`: two's-complement reinterpretation of the low 32 bits. -/
def toInt32 (u : Nat) : Int :=
  if u % 4294967296 < 2147483648 then ((u % 4294967296 : Nat) : Int)
  else ((u % 4294967296 : Nat) : Int) - 4294967296

/-! ### Bitmask constants (Buttons, EventType, Margin) -/

def B_NONE : Nat := 0
def B_RIGHT : Nat := 1
def B_MIDDLE : Nat := 2
def B_LEFT : Nat := 4
def B_FOURTH : Nat := 8
def B_UP : Nat := 16
def B_DOWN : Nat := 32

def MOVE : Nat := 1
def DRAG : Nat := 2
def DOWN : Nat := 4
def UP : Nat := 8
def SINGLE : Nat := 16
def DOUBLE : Nat := 32
def TRIPLE : Nat := 64
def MFLAG : Nat := 128
def HARD : Nat := 256
def ENTER : Nat := 512
def LEAVE : Nat := 1024

def TOP : Nat := 1
def BOT : Nat := 2
def LFT : Nat := 4
def RGT : Nat := 8

/-- `Buttons.String`: appends a label for each flag whose check
`b & flag > 0` passes, in declaration order, then joins with ",".
Note the source checks `b & B_NONE > 0` with `B_NONE = 0`. -/
def buttonsString (b : Nat) : String :=
  let s : List String := []
  let s := if b &&& B_NONE > 0 then s ++ ["none"] else s
  let s := if b &&& B_RIGHT > 0 then s ++ ["right"] else s
  let s := if b &&& B_MIDDLE > 0 then s ++ ["middle"] else s
  let s := if b &&& B_LEFT > 0 then s ++ ["left"] else s
  let s := if b &&& B_FOURTH > 0 then s ++ ["fourth"] else s
  let s := if b &&& B_UP > 0 then s ++ ["up"] else s
  let s := if b &&& B_DOWN > 0 then s ++ ["down"] else s
  String.intercalate "," s

/-- `EventType.String`: same pattern over the eleven event-type flags. -/
def eventTypeString (e : Nat) : String :=
  let s : List String := []
  let s := if e &&& MOVE > 0 then s ++ ["move"] else s
  let s := if e &&& DRAG > 0 then s ++ ["drag"] else s
  let s := if e &&& DOWN > 0 then s ++ ["down"] else s
  let s := if e &&& UP > 0 then s ++ ["up"] else s
  let s := if e &&& SINGLE > 0 then s ++ ["single"] else s
  let s := if e &&& DOUBLE > 0 then s ++ ["double"] else s
  let s := if e &&& TRIPLE > 0 then s ++ ["triple"] else s
  let s := if e &&& MFLAG > 0 then s ++ ["mflag"] else s
  let s := if e &&& HARD > 0 then s ++ ["hard"] else s
  let s := if e &&& ENTER > 0 then s ++ ["enter"] else s
  let s := if e &&& LEAVE > 0 then s ++ ["leave"] else s
  String.intercalate "," s

/-- `Margin.String`: same pattern over the four margin flags. -/
def marginString (m : Nat) : String :=
  let s : List String := []
  let s := if m &&& TOP > 0 then s ++ ["top"] else s
  let s := if m &&& BOT > 0 then s ++ ["bot"] else s
  let s := if m &&& LFT > 0 then s ++ ["lft"] else s
  let s := if m &&& RGT > 0 then s ++ ["rgt"] else s
  String.intercalate "," s

/-- The decoded `Event` struct.  `buttons`, `modifiers` are u8 values,
`vc` a u16 value, `etype` the (u16) EventType mask, `margin` the u32
Margin value; the signed 16/32-bit fields are carried as `Int`. -/
structure Event where
  buttons : Nat
  modifiers : Nat
  vc : Nat
  dx : Int
  dy : Int
  x : Int
  y : Int
  etype : Nat
  clicks : Int
  margin : Nat
  wdx : Int
  wdy : Int
deriving DecidableEq

/-- The Go zero value `Event{}`. -/
def Event.zero : Event := ⟨0, 0, 0, 0, 0, 0, 0, 0, 0, 0, 0, 0⟩

/-- The field extraction of `GPM.Read` from the 28-byte buffer `b`:
`Buttons(uint8(Uint16(b[0:])))`, `uint8(Uint16(b[1:]))`,
`Uint16(b[2:])`, `int16(Uint16(b[4:]))`, ..., `EventType` is a
`uint16` so the `Uint32(b[12:])` value is truncated to 16 bits. -/
def decodeEvent (en : Endian) (b : List Nat) : Event where
  buttons := toByte (getU16 en b 0)
  modifiers := toByte (getU16 en b 1)
  vc := getU16 en b 2
  dx := toInt16 (getU16 en b 4)
  dy := toInt16 (getU16 en b 6)
  x := toInt16 (getU16 en b 8)
  y := toInt16 (getU16 en b 10)
  etype := getU32 en b 12 % 65536
  clicks := toInt32 (getU32 en b 16)
  margin := getU32 en b 20
  wdx := toInt16 (getU16 en b 24)
  wdy := toInt16 (getU16 en b 26)

/-- The buffer `b := make([]byte, 28)` after `g.c.Read(b)` delivered
the bytes `d`: the delivered bytes (at most 28) followed by the
untouched zero bytes. -/
def readBuf (d : List Nat) : List Nat :=
  let t := d.take 28
  t ++ List.replicate (28 - t.length) 0

/-- `GPM.Read`, as a function of what the single transport read call
yielded: the delivered bytes `d` and whether it reported an error.
The byte count is not inspected; on error the zero `Event` is paired
with the error, otherwise the (possibly zero-padded) buffer is
decoded. -/
def gpmRead (en : Endian) (d : List Nat) (err : Bool) : Event × Bool :=
  if err then (Event.zero, true)
  else (decodeEvent en (readBuf d), false)

/-- `Event.String`: the fmt.Sprintf format
`type:%v[buttons:%s, modifiers:%v, vc:%v] x:%v[dx:%v] y:%v[dy:%v], clicks:%v margin:%v, wdx:%v, wdy:%v`. -/
def eventString (e : Event) : String :=
  "type:" ++ eventTypeString e.etype ++
    "[buttons:" ++ buttonsString e.buttons ++
    ", modifiers:" ++ toString e.modifiers ++
    ", vc:" ++ toString e.vc ++
    "] x:" ++ toString e.x ++
    "[dx:" ++ toString e.dx ++
    "] y:" ++ toString e.y ++
    "[dy:" ++ toString e.dy ++
    "], clicks:" ++ toString e.clicks ++
    " margin:" ++ marginString e.margin ++
    ", wdx:" ++ toString e.wdx ++
    ", wdy:" ++ toString e.wdy

/-- The `Gpm_Connect` configuration (`GPMConnect`). -/
structure GPMConnect where
  eventMask : Nat
  defaultMask : Nat
  minMod : Nat
  maxMod : Nat

/-- `DefaultConf`: all-ones masks, minMod 0, maxMod all-ones. -/
def DefaultConf : GPMConnect := ⟨65535, 65535, 0, 65535⟩

/-- The 16-byte handshake record built by `NewGPM`: PutUint16 of the
four mask fields at offsets 0,2,4,6 and PutUint32 of pid and tty at
offsets 8 and 12 (the six fields tile the buffer exactly). -/
def encodeConnect (en : Endian) (conf : GPMConnect) (pid tty : Nat) : List Nat :=
  putU16 en conf.eventMask ++ putU16 en conf.defaultMask ++
    putU16 en conf.minMod ++ putU16 en conf.maxMod ++
    putU32 en pid ++ putU32 en tty

/-! ### Helper lemmas -/

/-- Combining a low part below `2 ^ n` with a shifted high part by `or`
is the same as adding them. -/
theorem lor_shl (a b n m : Nat) (hm : 2 ^ n = m) (h : a < m) :
    a ||| b <<< n = m * b + a := by
  subst hm
  rw [Nat.shiftLeft_eq, Nat.mul_comm b (2 ^ n), Nat.or_comm]
  exact (Nat.mul_add_lt_is_or h b).symm

/-- Reading back the two bytes written for a 16-bit value recovers it. -/
theorem u16_round (v : Nat) (h : v < 65536) :
    (v % 256) ||| ((v >>> 8) % 256) <<< 8 = v := by
  have h8 : v >>> 8 = v / 256 := by
    rw [Nat.shiftRight_eq_div_pow]
  rw [h8, lor_shl _ _ 8 256 (by norm_num) (Nat.mod_lt _ (by norm_num))]
  omega

/-- Reading back the four bytes written for a 32-bit value recovers it. -/
theorem u32_round (v : Nat) (h : v < 4294967296) :
    ((v % 256) ||| ((v >>> 8) % 256) <<< 8) ||| ((v >>> 16) % 256) <<< 16 |||
      ((v >>> 24) % 256) <<< 24 = v := by
  have h8 : v >>> 8 = v / 256 := by
    rw [Nat.shiftRight_eq_div_pow]
  have h16 : v >>> 16 = v / 65536 := by
    rw [Nat.shiftRight_eq_div_pow]
  have h24 : v >>> 24 = v / 16777216 := by
    rw [Nat.shiftRight_eq_div_pow]
  rw [h8, h16, h24]
  rw [lor_shl _ _ 8 256 (by norm_num) (Nat.mod_lt _ (by norm_num))]
  rw [lor_shl _ _ 16 65536 (by norm_num) (by omega)]
  rw [lor_shl _ _ 24 16777216 (by norm_num) (by omega)]
  omega

/-- A delivered chunk of exactly 28 bytes fills the read buffer exactly. -/
theorem readBuf_of_length (b : List Nat) (h : b.length = 28) : readBuf b = b := by
  unfold readBuf
  rw [← h]
  simp

/-- The little-endian 28-byte record of the rendering scenario: type
has only the MOVE bit, x = 190, y = 28, dy = 1, all other fields 0. -/
def moveSample : List Nat :=
  [0, 0, 0, 0, 0, 0, 1, 0, 190, 0, 28, 0, 1, 0, 0, 0,
   0, 0, 0, 0, 0, 0, 0, 0, 0, 0, 0, 0]

/-! ### Claim theorems -/

/-- C1 (counterexample): a transport read that yields a single byte
with no error does not make `GPM.Read` fail: the byte count is never
inspected, so the zero-padded buffer is decoded and returned as an
ordinary `Event` (here with `buttons = 5`). -/
theorem short_read_no_error :
    ([5] : List Nat).length < 28 ∧
    (gpmRead Endian.little [5] false).2 = false ∧
    (gpmRead Endian.little [5] false).1.buttons = 5 := by
  refine ⟨by decide, rfl, by decide⟩

/-- C1 (amended): `GPM.Read` fails exactly when the single transport
read call reports an error (as a closed connection does); when no
error is reported — however few bytes were delivered — it decodes the
zero-padded 28-byte buffer and returns the resulting `Event` with no
error.  No buffering or resumption across calls occurs: each call
decodes only its own fresh buffer. -/
theorem read_error_iff_transport_error (en : Endian) (d : List Nat) (err : Bool) :
    (gpmRead en d err).2 = err ∧
    gpmRead en d false = (decodeEvent en (readBuf d), false) := by
  cases err <;> simp [gpmRead]

/-- C2 (counterexample): rendering the Buttons value 0 yields the
empty string, not "none": the source checks `b & B_NONE > 0` with
`B_NONE = 0`, which never holds. -/
theorem buttons_zero_not_none : buttonsString 0 ≠ "none" := by decide

/-- C2 (amended): Buttons value 0 renders as the empty string (the
NONE flag check can never fire because its bit value is 0), and
Buttons value 5 (RIGHT|LEFT) renders as "right,left". -/
theorem buttons_zero_and_five_render :
    buttonsString 0 = "" ∧ buttonsString 5 = "right,left" := by decide

/-- C3 (counterexample): the MOVE scenario record does not render with
`buttons:none`: Buttons 0 renders as the empty string. -/
theorem move_scenario_render_ne_spec :
    eventString (decodeEvent Endian.little moveSample) ≠
      "type:move[buttons:none, modifiers:0, vc:0] x:190[dx:0] y:28[dy:1], clicks:0 margin:, wdx:0, wdy:0" := by
  decide

/-- C3 (amended): the 28-byte record with only the MOVE type bit,
x = 190, y = 28, dy = 1 and all else zero decodes to an Event whose
textual rendering is exactly
`type:move[buttons:, modifiers:0, vc:0] x:190[dx:0] y:28[dy:1], clicks:0 margin:, wdx:0, wdy:0`. -/
theorem move_scenario_render :
    moveSample.length = 28 ∧
    eventString (decodeEvent Endian.little moveSample) =
      "type:move[buttons:, modifiers:0, vc:0] x:190[dx:0] y:28[dy:1], clicks:0 margin:, wdx:0, wdy:0" := by
  exact ⟨by decide, by decide⟩

/-- C4: for all 16-bit mask fields and 32-bit pid and tty values, and
in both native byte orders, reading each field of the encoded 16-byte
handshake record back at its documented offset recovers the exact
input values. -/
theorem handshake_roundtrip (en : Endian) (conf : GPMConnect) (pid tty : Nat)
    (h1 : conf.eventMask < 65536) (h2 : conf.defaultMask < 65536)
    (h3 : conf.minMod < 65536) (h4 : conf.maxMod < 65536)
    (h5 : pid < 4294967296) (h6 : tty < 4294967296) :
    getU16 en (encodeConnect en conf pid tty) 0 = conf.eventMask ∧
    getU16 en (encodeConnect en conf pid tty) 2 = conf.defaultMask ∧
    getU16 en (encodeConnect en conf pid tty) 4 = conf.minMod ∧
    getU16 en (encodeConnect en conf pid tty) 6 = conf.maxMod ∧
    getU32 en (encodeConnect en conf pid tty) 8 = pid ∧
    getU32 en (encodeConnect en conf pid tty) 12 = tty := by
  obtain ⟨em, dm, mn, mx⟩ := conf
  cases en with
  | little =>
      exact ⟨u16_round em h1, u16_round dm h2, u16_round mn h3, u16_round mx h4,
        u32_round pid h5, u32_round tty h6⟩
  | big =>
      exact ⟨u16_round em h1, u16_round dm h2, u16_round mn h3, u16_round mx h4,
        u32_round pid h5, u32_round tty h6⟩

/-- C4 (witness): the roundtrip at the default configuration with
pid 1234 and tty 4 under little-endian order. -/
theorem handshake_roundtrip_witness :
    getU16 Endian.little (encodeConnect Endian.little DefaultConf 1234 4) 0 =
        DefaultConf.eventMask ∧
    getU16 Endian.little (encodeConnect Endian.little DefaultConf 1234 4) 2 =
        DefaultConf.defaultMask ∧
    getU16 Endian.little (encodeConnect Endian.little DefaultConf 1234 4) 4 =
        DefaultConf.minMod ∧
    getU16 Endian.little (encodeConnect Endian.little DefaultConf 1234 4) 6 =
        DefaultConf.maxMod ∧
    getU32 Endian.little (encodeConnect Endian.little DefaultConf 1234 4) 8 = 1234 ∧
    getU32 Endian.little (encodeConnect Endian.little DefaultConf 1234 4) 12 = 4 :=
  handshake_roundtrip Endian.little DefaultConf 1234 4 (by decide) (by decide)
    (by decide) (by decide) (by decide) (by decide)

/-- C5: for every 28-byte input the decode is total and deterministic:
with no transport error the call returns the decoded Event with the
error flag false (it never fails on any byte pattern of the correct
length), and identical buffers decode to identical results. -/
theorem decode_total_deterministic (en : Endian) (b : List Nat) (h : b.length = 28) :
    gpmRead en b false = (decodeEvent en b, false) ∧
    ∀ b₂ : List Nat, b₂ = b → gpmRead en b₂ false = gpmRead en b false := by
  refine ⟨?_, fun b₂ hb₂ => by rw [hb₂]⟩
  simp [gpmRead, readBuf_of_length b h]

/-- C5 (witness): the all-zero 28-byte record decodes with no error. -/
theorem decode_total_deterministic_witness :
    (List.replicate 28 0).length = 28 ∧
    gpmRead Endian.little (List.replicate 28 0) false =
      (decodeEvent Endian.little (List.replicate 28 0), false) :=
  ⟨by decide, (decode_total_deterministic Endian.little (List.replicate 28 0) (by decide)).1⟩

/-- C6 (counterexample): under big-endian native order the decoded
buttons field is the byte at offset 1, not the byte at offset 0: on
the 28-byte buffer starting `1, 2, ...` the decoder stores 2. -/
theorem buttons_offset_big_endian_counterexample :
    (1 :: 2 :: List.replicate 26 0 : List Nat).length = 28 ∧
    (∀ x ∈ (1 :: 2 :: List.replicate 26 0 : List Nat), x < 256) ∧
    (decodeEvent Endian.big (1 :: 2 :: List.replicate 26 0)).buttons ≠
      (1 :: 2 :: List.replicate 26 0 : List Nat).getD 0 0 := by
  refine ⟨by decide, by decide, by decide⟩

/-- C6 (amended): the decoded buttons field keeps only the low 8 bits
of the native-order 16-bit value read at offset 0: under little-endian
order that is the byte at offset 0, under big-endian order the byte at
offset 1. -/
theorem buttons_low_byte (b : List Nat) (h : b.length = 28)
    (hv : ∀ x ∈ b, x < 256) :
    (decodeEvent Endian.little b).buttons = b.getD 0 0 ∧
    (decodeEvent Endian.big b).buttons = b.getD 1 0 := by
  obtain ⟨b0, b1, rest, rfl⟩ : ∃ b0 b1 rest, b = b0 :: b1 :: rest := by
    cases b with
    | nil => simp at h
    | cons b0 t =>
        cases t with
        | nil => simp at h
        | cons b1 rest => exact ⟨b0, b1, rest, rfl⟩
  have h0 : b0 < 256 := hv b0 (by simp)
  have h1 : b1 < 256 := hv b1 (by simp)
  constructor
  · show toByte (b0 ||| b1 <<< 8) = b0
    rw [lor_shl _ _ 8 256 (by norm_num) h0]
    unfold toByte
    omega
  · show toByte (b1 ||| b0 <<< 8) = b1
    rw [lor_shl _ _ 8 256 (by norm_num) h1]
    unfold toByte
    omega

/-- C6 (witness for the amended claim): on the buffer starting
`7, 9, ...` the little-endian decode stores byte 0, i.e. 7. -/
theorem buttons_low_byte_witness :
    (7 :: 9 :: List.replicate 26 0 : List Nat).length = 28 ∧
    (decodeEvent Endian.little (7 :: 9 :: List.replicate 26 0)).buttons =
      (7 :: 9 :: List.replicate 26 0 : List Nat).getD 0 0 :=
  ⟨by decide, (buttons_low_byte (7 :: 9 :: List.replicate 26 0) (by decide) (by decide)).1⟩

/-- C7: the default configuration (all-ones masks, minMod 0) with
pid 1234 and tty 4 encodes, least significant byte first, to exactly
FF FF FF FF 00 00 FF FF D2 04 00 00 04 00 00 00. -/
theorem default_handshake_bytes :
    encodeConnect Endian.little DefaultConf 1234 4 =
      [255, 255, 255, 255, 0, 0, 255, 255, 210, 4, 0, 0, 4, 0, 0, 0] := by
  decide

/-- C8: rendering an EventType value with exactly the MOVE, DOWN and
SINGLE bits set yields "move,down,single" in the fixed declaration
order regardless of the order the bits were or-ed in, and rendering
the same value again yields the same string. -/
theorem event_type_render_order_stable (l : List Nat)
    (h : l.Perm [MOVE, DOWN, SINGLE]) :
    eventTypeString (l.foldl (fun a b => a ||| b) 0) = "move,down,single" ∧
    eventTypeString (l.foldl (fun a b => a ||| b) 0) =
      eventTypeString (l.foldl (fun a b => a ||| b) 0) := by
  have hf : l.foldl (fun a b => a ||| b) 0 =
      [MOVE, DOWN, SINGLE].foldl (fun a b => a ||| b) 0 :=
    h.foldl_eq'
      (fun x _ y _ z => by
        show (z ||| x) ||| y = (z ||| y) ||| x
        rw [Nat.or_assoc, Nat.or_assoc, Nat.or_comm x y]) 0
  rw [hf]
  exact ⟨by decide, rfl⟩

/-- C8 (witness): or-ing the bits in the order DOWN, MOVE, SINGLE
still renders as "move,down,single". -/
theorem event_type_render_order_stable_witness :
    ([DOWN, MOVE, SINGLE] : List Nat).Perm [MOVE, DOWN, SINGLE] ∧
    eventTypeString (([DOWN, MOVE, SINGLE] : List Nat).foldl (fun a b => a ||| b) 0) =
      "move,down,single" :=
  ⟨List.Perm.swap MOVE DOWN [SINGLE],
    (event_type_render_order_stable [DOWN, MOVE, SINGLE]
      (List.Perm.swap MOVE DOWN [SINGLE])).1⟩

/-- C9: whenever `GPM.Read` reports an error, the Event it returns
alongside is the all-zero Event. -/
theorem read_error_zero_event (en : Endian) (d : List Nat) (err : Bool)
    (h : (gpmRead en d err).2 = true) : (gpmRead en d err).1 = Event.zero := by
  cases err with
  | false => simp [gpmRead] at h
  | true => simp [gpmRead]

/-- C9 (witness): a failing read with an empty delivery returns the
zero Event. -/
theorem read_error_zero_event_witness :
    (gpmRead Endian.little [] true).2 = true ∧
    (gpmRead Endian.little [] true).1 = Event.zero :=
  ⟨rfl, read_error_zero_event Endian.little [] true rfl⟩

set_option maxRecDepth 4096 in
/-- C10: Buttons rendering depends only on the six declared flag bits:
for every 8-bit value b it renders the same string as b AND 63. -/
theorem buttons_depends_on_declared_bits (b : Nat) (h : b < 256) :
    buttonsString b = buttonsString (b &&& 63) := by
  have hfin : ∀ x : Fin 256, buttonsString x.val = buttonsString (x.val &&& 63) := by
    decide
  exact hfin ⟨b, h⟩

/-- C10 (witness): the value 255 renders the same as 255 AND 63. -/
theorem buttons_depends_on_declared_bits_witness :
    (255 : Nat) < 256 ∧ buttonsString 255 = buttonsString (255 &&& 63) :=
  ⟨by decide, buttons_depends_on_declared_bits 255 (by decide)⟩

end Gpmctl
